import Mathlib

/-!
Shallow embedding of the Terrapod run orchestrator
(`services/terrapod/services/run_service.py`,
`services/terrapod/api/routers/runs.py`,
`services/terrapod/api/routers/agent_pools.py`,
`services/terrapod/api/dependencies.py`,
`services/terrapod/services/encryption_service.py`,
`services/terrapod/runner/listener.py`), together with proofs about the
run state machine, workspace locking, log framing, state encryption,
listener authentication and the work queue.

Conventions of the embedding:
* database timestamps are natural numbers (`utc_now()` becomes an explicit
  `now : Nat` argument threaded through each operation);
* UUIDs are `Nat` (listeners, pools, workspaces) or `String` (runs, which
  are only ever used via the `"run-" ++ id` serialization);
* byte strings are `List Nat`;
* Python exceptions (`ValueError`, `RuntimeError`) become `Except String`,
  HTTP error responses become `Except Nat` carrying the status code;
* a SQLAlchemy row becomes a Lean structure holding the columns the
  orchestrator reads or writes.
-/

namespace Terrapod

/-- A row of the `runs` table; the columns read or written by the run
state machine and its callers (`db/models.py`, class `Run`). -/
structure Run where
  id : String
  workspace_id : Nat
  status : String
  message : String
  is_destroy : Bool
  auto_apply : Bool
  plan_only : Bool
  source : String
  terraform_version : String
  pool_id : Option Nat
  listener_id : Option Nat
  error_message : String
  plan_started_at : Option Nat
  plan_finished_at : Option Nat
  apply_started_at : Option Nat
  apply_finished_at : Option Nat
  created_by : String
  created_at : Nat
  deriving Repr, DecidableEq

/-- A row of the `workspaces` table; the columns the run orchestrator
touches (`db/models.py`, class `Workspace`). -/
structure Workspace where
  id : Nat
  auto_apply : Bool
  terraform_version : String
  locked : Bool
  lock_id : Option String
  agent_pool_id : Option Nat
  deriving Repr, DecidableEq

/-- `VALID_TRANSITIONS` dict from `run_service.py`, as a function from a
status to its set of allowed targets; the `dict.get(current, set())`
default becomes the catch-all `[]` arm. -/
def VALID_TRANSITIONS : String → List String
  | "pending" => ["queued", "canceled", "errored"]
  | "queued" => ["planning", "canceled", "errored"]
  | "planning" => ["planned", "errored", "canceled"]
  | "planned" => ["confirmed", "discarded", "errored", "canceled"]
  | "confirmed" => ["applying", "errored", "canceled"]
  | "applying" => ["applied", "errored", "canceled"]
  | _ => []

/-- `TERMINAL_STATES` from `run_service.py`. -/
def TERMINAL_STATES : List String := ["applied", "errored", "discarded", "canceled"]

/-- The ten persisted run statuses (spec section 4.5). -/
def RUN_STATUSES : List String :=
  ["pending", "queued", "planning", "planned", "confirmed",
   "applying", "applied", "errored", "discarded", "canceled"]

/-- `can_transition` from `run_service.py`. -/
def can_transition (current target : String) : Bool :=
  if TERMINAL_STATES.contains current then false
  else (VALID_TRANSITIONS current).contains target

/-- The mutation performed by `transition_run` once the guard has passed:
set the status, record a non-empty error message (Python truthiness of
`error_message`), and stamp phase timestamps via the `if/elif` chain. -/
def transition_apply (run : Run) (target_status : String) (error_message : String)
    (now : Nat) : Run :=
  let r := { run with
    status := target_status,
    error_message := if error_message ≠ "" then error_message else run.error_message }
  if target_status = "planning" then
    { r with plan_started_at := some now }
  else if (target_status = "planned" ∨ target_status = "errored")
      ∧ run.plan_started_at.isSome ∧ run.plan_finished_at.isNone then
    { r with plan_finished_at := some now }
  else if target_status = "applying" then
    { r with apply_started_at := some now }
  else if (target_status = "applied" ∨ target_status = "errored")
      ∧ run.apply_started_at.isSome ∧ run.apply_finished_at.isNone then
    { r with apply_finished_at := some now }
  else r

/-- `transition_run` from `run_service.py`: guard on `can_transition`
(raising `ValueError` on failure), then the status/timestamp update. -/
def transition_run (run : Run) (target_status : String) (error_message : String)
    (now : Nat) : Except String Run :=
  if ¬ can_transition run.status target_status then
    .error ("Invalid transition: " ++ run.status ++ " -> " ++ target_status)
  else
    .ok (transition_apply run target_status error_message now)

/-- `queue_run` from `run_service.py`. -/
def queue_run (run : Run) (now : Nat) : Except String Run :=
  transition_run run "queued" "" now

/-- `confirm_run` from `run_service.py`: only the `status == "planned"`
guard, then a transition to `confirmed`. -/
def confirm_run (run : Run) (now : Nat) : Except String Run :=
  if run.status ≠ "planned" then
    .error ("Can only confirm runs in 'planned' status, got '" ++ run.status ++ "'")
  else
    transition_run run "confirmed" "" now

/-- Release a workspace lock the way every unlock site in the source does:
`if workspace and workspace.locked: locked = False; lock_id = None`. -/
def unlock_if_locked (ws : Workspace) : Workspace :=
  if ws.locked then { ws with locked := false, lock_id := none } else ws

/-- `discard_run` from `run_service.py`: guard on `planned`, unlock the
workspace unconditionally (no `lock_id` comparison), transition to
`discarded`.  A failed transition aborts the transaction, so the error
case returns no state change. -/
def discard_run (run : Run) (ws : Workspace) (now : Nat) :
    Except String (Run × Workspace) :=
  if run.status ≠ "planned" then
    .error ("Can only discard runs in 'planned' status, got '" ++ run.status ++ "'")
  else
    match transition_run run "discarded" "" now with
    | .ok r => .ok (r, unlock_if_locked ws)
    | .error e => .error e

/-- `cancel_run` from `run_service.py`: guard on non-terminal, unlock the
workspace unconditionally, transition to `canceled`. -/
def cancel_run (run : Run) (ws : Workspace) (now : Nat) :
    Except String (Run × Workspace) :=
  if TERMINAL_STATES.contains run.status then
    .error ("Cannot cancel run in terminal state '" ++ run.status ++ "'")
  else
    match transition_run run "canceled" "" now with
    | .ok r => .ok (r, unlock_if_locked ws)
    | .error e => .error e

/-- `update_run_status` (PATCH `/listeners/{id}/runs/{run_id}` in
`routers/runs.py`): ownership check (`403`), non-empty status (`422`),
`transition_run` (`409` on `ValueError`), the auto-apply bridge for
`planned` runs, and the unconditional unlock on terminal states.  The
error side carries the HTTP status code. -/
def update_run_status (run : Run) (ws : Workspace) (listener_uuid : Nat)
    (target_status error_message : String) (now : Nat) :
    Except Nat (Run × Workspace) :=
  if run.listener_id ≠ some listener_uuid then .error 403
  else if target_status = "" then .error 422
  else
    match transition_run run target_status error_message now with
    | .error _ => .error 409
    | .ok r1 =>
      let r2res :=
        if target_status = "planned" ∧ r1.auto_apply ∧ ¬ r1.plan_only then
          transition_run r1 "confirmed" "" now
        else .ok r1
      match r2res with
      | .error _ => .error 409
      | .ok r2 =>
        let ws' :=
          if TERMINAL_STATES.contains target_status then unlock_if_locked ws
          else ws
        .ok (r2, ws')

/-- `create_run` from `run_service.py`.  `default_pool` is the result of
the `select(AgentPool).where(AgentPool.name == "default")` lookup, and
`new_id`/`now` stand for the generated UUID and `created_at` default.
The pool is the workspace's pool, falling back to the default pool when
the workspace names none. -/
def create_run (ws : Workspace) (message : String) (is_destroy : Bool)
    (auto_apply : Option Bool) (plan_only : Bool) (source : String)
    (terraform_version : String) (created_by : String)
    (default_pool : Option Nat) (new_id : String) (now : Nat) : Run :=
  let aa := match auto_apply with
    | none => ws.auto_apply
    | some b => b
  let pool_id := match ws.agent_pool_id with
    | some p => some p
    | none => default_pool
  { id := new_id
    workspace_id := ws.id
    status := "pending"
    message := message
    is_destroy := is_destroy
    auto_apply := aa
    plan_only := plan_only
    source := source
    terraform_version := if terraform_version ≠ "" then terraform_version
                         else ws.terraform_version
    pool_id := pool_id
    listener_id := none
    error_message := ""
    plan_started_at := none
    plan_finished_at := none
    apply_started_at := none
    apply_finished_at := none
    created_by := created_by
    created_at := now }

/-- A row of the `runner_listeners` table (`db/models.py`,
class `RunnerListener`); `pool_id` is non-nullable there. -/
structure RunnerListener where
  id : Nat
  pool_id : Nat
  name : String
  certificate_fingerprint : Option String
  deriving Repr, DecidableEq

/-- `claim_next_run` from `run_service.py`.  The `runs` list stands for
the `runs` table ordered by `created_at ASC` (the query's `ORDER BY`),
so the SQL `LIMIT 1` is `find?`; the `WHERE` clause filters on
`status = 'queued'` and `pool_id = listener.pool_id`.  On a hit the run
gets `listener_id := listener.id` and is transitioned to `planning`. -/
def claim_next_run (runs : List Run) (listener : RunnerListener) (now : Nat) :
    Option Run :=
  match runs.find? (fun r =>
      r.status == "queued" && r.pool_id == some listener.pool_id) with
  | none => none
  | some r =>
    (transition_run { r with listener_id := some listener.id } "planning" "" now).toOption

-- ── Listener certificate authentication ─────────────────────────────────

/-- Semantic content of the base64 PEM certificate presented in the
`X-Terrapod-Client-Cert` header, abstracting the `cryptography` library
calls in `dependencies.py`: whether decoding+parsing succeeds, whether
the CA signature verifies, whether `now` is inside the validity window,
the subject CN, and the SHA-256 fingerprint. -/
structure ClientCert where
  parses : Bool
  signed_by_ca : Bool
  in_validity_window : Bool
  common_name : Option String
  fingerprint : String
  deriving Repr, DecidableEq

/-- `get_listener_identity` from `api/dependencies.py`: the five-step
verification chain (parse, CA signature, validity window, CN lookup,
fingerprint equality), every failure a 401.  The fingerprint check is
skipped when the row's fingerprint is null (`if
listener.certificate_fingerprint and ...`). -/
def get_listener_identity (header : Option ClientCert)
    (listeners : List RunnerListener) (now_ok : ClientCert → Bool) :
    Except Nat RunnerListener :=
  match header with
  | none => .error 401
  | some c =>
    if ¬ c.parses then .error 401
    else if ¬ c.signed_by_ca then .error 401
    else if ¬ now_ok c then .error 401
    else
      match c.common_name with
      | none => .error 401
      | some cn =>
        match listeners.find? (fun l => l.name == cn) with
        | none => .error 401
        | some l =>
          if l.certificate_fingerprint.isSome
              ∧ l.certificate_fingerprint ≠ some c.fingerprint then .error 401
          else .ok l

/-- One `redis.setex` write performed by the heartbeat endpoint. -/
structure KvWrite where
  key : String
  ttl : Nat
  value : String
  deriving Repr, DecidableEq

/-- `listener_heartbeat` (POST `/listeners/{id}/heartbeat` in
`routers/agent_pools.py`).  The handler takes no certificate dependency
at all — its docstring reads "Currently accepts any request with a valid
listener ID.  Certificate-based auth will be added" — so the
`cert_header` argument models the header a client may send and is never
consulted.  Returns the HTTP status and the Redis writes: 404 when the
listener id is unknown, otherwise 200 with the five `setex` calls. -/
def listener_heartbeat (listeners : List RunnerListener) (listener_id : Nat)
    (cert_header : Option ClientCert)
    (capacity active_runs : Nat) (runner_defs_json : String)
    (now_epoch : Nat) : Nat × List KvWrite :=
  match listeners.find? (fun l => l.id == listener_id) with
  | none => (404, [])
  | some l =>
    let prefixStr := "tp:listener:" ++ toString l.id
    (200,
      [ { key := prefixStr ++ ":status", ttl := 180, value := "online" }
      , { key := prefixStr ++ ":heartbeat", ttl := 180, value := toString now_epoch }
      , { key := prefixStr ++ ":capacity", ttl := 180, value := toString capacity }
      , { key := prefixStr ++ ":active_runs", ttl := 180, value := toString active_runs }
      , { key := prefixStr ++ ":runner_defs", ttl := 180, value := runner_defs_json } ])

-- ── State encryption (`services/encryption_service.py`) ─────────────────

/-- The Fernet codec held by the module-level `_fernet` singleton,
abstracted to an encryption function and a decryption function;
`dec` returns `none` on `InvalidToken`. -/
structure FernetKey where
  enc : List Nat → List Nat
  dec : List Nat → Option (List Nat)

/-- `_STATE_MAGIC = b"TPENC1:"` as bytes. -/
def STATE_MAGIC : List Nat := [84, 80, 69, 78, 67, 49, 58]

/-- `encrypt_state`: plaintext pass-through without a key, otherwise the
magic prefix followed by the Fernet ciphertext. -/
def encrypt_state (fernet : Option FernetKey) (plaintext : List Nat) : List Nat :=
  match fernet with
  | none => plaintext
  | some f => STATE_MAGIC ++ f.enc plaintext

/-- `decrypt_state`: data without the magic prefix is returned as-is
(legacy plaintext); with the prefix a missing key raises `RuntimeError`
and a failed Fernet decryption raises `ValueError`. -/
def decrypt_state (fernet : Option FernetKey) (data : List Nat) :
    Except String (List Nat) :=
  if ¬ STATE_MAGIC.isPrefixOf data then .ok data
  else
    match fernet with
    | none => .error "State is encrypted but no encryption key is configured."
    | some f =>
      match f.dec (data.drop STATE_MAGIC.length) with
      | some p => .ok p
      | none => .error "Failed to decrypt state - key mismatch or corrupted data"

-- ── Log serving (`routers/runs.py`) ─────────────────────────────────────

/-- `_STX = b"\x02"`. -/
def STX : List Nat := [2]

/-- `_ETX = b"\x03"`. -/
def ETX : List Nat := [3]

/-- `_POST_PLAN_STATES` from `routers/runs.py` (terminal-for-plan-phase). -/
def POST_PLAN_STATES : List String :=
  ["planned", "confirmed", "applying", "applied", "errored", "discarded", "canceled"]

/-- The apply-phase frozenset passed by `apply_log`. -/
def POST_APPLY_STATES : List String := ["applied", "errored", "discarded", "canceled"]

/-- `_serve_log` from `routers/runs.py`.  `data` is the storage blob
(`none` models `ObjectNotFoundError`).  The Python slice
`data[offset : offset+limit]` for the natural offsets and limits the
go-tfe LogReader sends is `(drop offset).take limit`.  Returns the body
bytes. -/
def serve_log (run_status : String) (phase_complete_states : List String)
    (data : Option (List Nat)) (offset limit : Nat) : List Nat :=
  let phase_done := phase_complete_states.contains run_status
  match data with
  | none => if phase_done then STX ++ ETX else []
  | some d =>
    let chunk := (d.drop offset).take limit
    let part := (if offset = 0 then STX else []) ++ chunk
    if phase_done ∧ offset + limit ≥ d.length then part ++ ETX else part

-- ── Spec-side transition graph (spec section 4.5) ───────────────────────

/-- Allowed-transition sets transcribed from the spec's section 4.5 graph
(for the refinement comparison with `VALID_TRANSITIONS` / `can_transition`):
the six non-terminal states have the listed targets; terminal states and
anything else allow nothing ("Any transition out of a terminal state
fails"). -/
def allowed_transitions_spec : String → List String
  | "pending" => ["queued", "canceled", "errored"]
  | "queued" => ["planning", "canceled", "errored"]
  | "planning" => ["planned", "errored", "canceled"]
  | "planned" => ["confirmed", "discarded", "errored", "canceled"]
  | "confirmed" => ["applying", "errored", "canceled"]
  | "applying" => ["applied", "errored", "canceled"]
  | _ => []

-- ── Phase-timestamp invariant (for the monotonicity property) ───────────

/-- Order between optional timestamps: vacuously true unless both set. -/
def opt_le (a b : Option Nat) : Bool :=
  match a, b with
  | some x, some y => x ≤ y
  | _, _ => true

/-- Upper bound on an optional timestamp. -/
def opt_ub (a : Option Nat) (t : Nat) : Bool :=
  match a with
  | some x => x ≤ t
  | none => true

/-- The monotone chain `plan_started_at ≤ plan_finished_at ≤
apply_started_at ≤ apply_finished_at` over the timestamps that are set
(all pairwise comparisons of the chain). -/
def ts_chain (r : Run) : Bool :=
  opt_le r.plan_started_at r.plan_finished_at
    && opt_le r.plan_finished_at r.apply_started_at
    && opt_le r.apply_started_at r.apply_finished_at
    && opt_le r.plan_started_at r.apply_started_at
    && opt_le r.plan_finished_at r.apply_finished_at
    && opt_le r.plan_started_at r.apply_finished_at

/-- Every set timestamp is at most `t` (the time of the last write). -/
def ts_bound (r : Run) (t : Nat) : Bool :=
  opt_ub r.plan_started_at t && opt_ub r.plan_finished_at t
    && opt_ub r.apply_started_at t && opt_ub r.apply_finished_at t

/-- Which timestamps are set in each non-terminal status, as enforced by
the state machine (a freshly created run has none; `planning` stamps
`plan_started_at`; `planned` stamps `plan_finished_at`; `applying`
stamps `apply_started_at`). -/
def ts_shape (r : Run) : Bool :=
  if r.status = "pending" ∨ r.status = "queued" then
    r.plan_started_at.isNone && r.plan_finished_at.isNone
      && r.apply_started_at.isNone && r.apply_finished_at.isNone
  else if r.status = "planning" then
    r.plan_started_at.isSome && r.plan_finished_at.isNone
      && r.apply_started_at.isNone && r.apply_finished_at.isNone
  else if r.status = "planned" ∨ r.status = "confirmed" then
    r.plan_started_at.isSome && r.plan_finished_at.isSome
      && r.apply_started_at.isNone && r.apply_finished_at.isNone
  else if r.status = "applying" then
    r.plan_started_at.isSome && r.plan_finished_at.isSome
      && r.apply_started_at.isSome && r.apply_finished_at.isNone
  else true

/-- Invariant carried through every successful transition: the chain, the
bound by the last write time, and the per-status shape. -/
def run_ts_inv (r : Run) (t : Nat) : Bool :=
  ts_chain r && ts_bound r t && ts_shape r

/-- Reachability by sequences of successful `transition_run` calls with
non-decreasing wall-clock times (`utc_now()` never goes backwards). -/
inductive RunReach : Run → Nat → Run → Nat → Prop where
  | refl (r : Run) (t : Nat) : RunReach r t r t
  | step {r0 : Run} {t0 : Nat} {r : Run} {t : Nat} {tgt msg : String}
      {now : Nat} {r' : Run} :
      RunReach r0 t0 r t → t ≤ now →
      transition_run r tgt msg now = Except.ok r' →
      RunReach r0 t0 r' now

-- ── Orphan recovery (`runner/listener.py`) ──────────────────────────────

/-- Phase determination in `_recover_orphaned_runs`:
`"apply" if run.apply_started_at else "plan"`. -/
def recovery_phase (run : Run) : String :=
  if run.apply_started_at.isSome then "apply" else "plan"

/-- Target chosen by `_recover_orphaned_runs` when the orphaned Job has
already finished (`job_status ∈ {succeeded, failed}`): `planned` for a
succeeded plan, `applied` for a succeeded apply, else `errored`. -/
def recovered_finished_target (job_status phase : String) : String :=
  if job_status = "succeeded" ∧ phase = "plan" then "planned"
  else if job_status = "succeeded" then "applied"
  else "errored"

/-- Status reported by `_resume_watch` once a resumed (still-running)
Job completes: `("planned", "")` on success — for either phase — else
`("errored", "Recovered: " ++ result)`. -/
def resume_watch_report (result : String) : String × String :=
  if result = "succeeded" then ("planned", "")
  else ("errored", "Recovered: " ++ result)

/-- Effect of `_resume_watch` on the run through `_report_status`'s local
path, which calls `transition_run` with the reported status. -/
def resume_watch_transition (run : Run) (watch_result : String) (now : Nat) :
    Except String Run :=
  transition_run run (resume_watch_report watch_result).1
    (resume_watch_report watch_result).2 now

-- ── Concrete fixtures used by counterexamples and witnesses ─────────────

/-- A baseline run row for concrete instantiations. -/
def exRun : Run :=
  { id := "r1", workspace_id := 1, status := "pending", message := "",
    is_destroy := false, auto_apply := false, plan_only := false,
    source := "tfe-api", terraform_version := "1.7.0", pool_id := some 2,
    listener_id := some 7, error_message := "", plan_started_at := none,
    plan_finished_at := none, apply_started_at := none,
    apply_finished_at := none, created_by := "user@example.com", created_at := 0 }

/-- A baseline workspace row for concrete instantiations. -/
def exWorkspace : Workspace :=
  { id := 1, auto_apply := false, terraform_version := "1.7.0",
    locked := false, lock_id := none, agent_pool_id := some 2 }

/-- A speculative (`plan_only`) run sitting in `planned`. -/
def exPlannedPlanOnlyRun : Run :=
  { exRun with
    status := "planned"
    plan_only := true
    plan_started_at := some 1
    plan_finished_at := some 2 }

/-- A run mid-apply (status `applying`). -/
def exApplyingRun : Run :=
  { exRun with
    status := "applying"
    plan_started_at := some 1
    plan_finished_at := some 2
    apply_started_at := some 3 }

/-- A run in `confirmed`, about to enter `applying`. -/
def exConfirmedRun : Run :=
  { exRun with
    status := "confirmed"
    plan_started_at := some 1
    plan_finished_at := some 2 }

/-- A workspace locked under a user lock id that does not match any
`"run-{id}"`. -/
def exUserLockedWorkspace : Workspace :=
  { exWorkspace with
    locked := true
    lock_id := some "lock-alice@example.com" }

-- ════════════════════════════════════════════════════════════════════════
-- Theorems
-- ════════════════════════════════════════════════════════════════════════

/-- Computation rule: `isOk` of a success. -/
@[simp] theorem tp_isOk_ok {ε α : Type} (a : α) :
    (Except.ok a : Except ε α).isOk = true := rfl

/-- Computation rule: `isOk` of a failure. -/
@[simp] theorem tp_isOk_error {ε α : Type} (e : ε) :
    (Except.error e : Except ε α).isOk = false := rfl

/-- Computation rule: `toOption` of a success. -/
@[simp] theorem tp_toOption_ok {ε α : Type} (a : α) :
    (Except.ok a : Except ε α).toOption = some a := rfl

/-- Computation rule: `toOption` of a failure. -/
@[simp] theorem tp_toOption_error {ε α : Type} (e : ε) :
    (Except.error e : Except ε α).toOption = none := rfl

/-- Success and failure of `transition_run` is exactly the
`can_transition` guard, and on success the result is the
`transition_apply` update. -/
theorem transition_run_ok_iff {run : Run} {t em : String} {now : Nat} {r' : Run} :
    transition_run run t em now = Except.ok r' ↔
      can_transition run.status t = true ∧ r' = transition_apply run t em now := by
  unfold transition_run
  cases hc : can_transition run.status t <;> simp [hc, eq_comm]

/-- `transition_run` succeeds exactly when `can_transition` allows it. -/
theorem transition_run_isOk (run : Run) (t em : String) (now : Nat) :
    (transition_run run t em now).isOk = can_transition run.status t := by
  cases hc : can_transition run.status t
  · simp only [transition_run, hc]
    rfl
  · simp only [transition_run, hc]
    rfl

/-- The update always installs the target status. -/
theorem transition_apply_status (run : Run) (t em : String) (now : Nat) :
    (transition_apply run t em now).status = t := by
  unfold transition_apply
  repeat' split
  all_goals rfl

/-- The update never touches the pool assignment. -/
theorem transition_apply_pool_id (run : Run) (t em : String) (now : Nat) :
    (transition_apply run t em now).pool_id = run.pool_id := by
  unfold transition_apply
  repeat' split
  all_goals rfl

-- ── C1: heartbeat endpoint authentication ───────────────────────────────

/-- Claim C1, counterexample: a heartbeat request for a registered
listener that presents a well-formed Ed25519 leaf certificate NOT signed
by the CA (`signed_by_ca := false`) is answered with HTTP 200, not the
401 the claim requires — the handler never consults the certificate. -/
theorem heartbeat_forged_cert_accepted :
    (listener_heartbeat
        [{ id := 5, pool_id := 2, name := "l1", certificate_fingerprint := some "aa" }]
        5
        (some { parses := true, signed_by_ca := false, in_validity_window := true,
                common_name := some "l1", fingerprint := "aa" })
        3 0 "[]" 100).1 = 200 := by
  rfl

/-- Claim C1, amended: `POST /listeners/{id}/heartbeat` performs no
certificate authentication at all — its response depends only on whether
the listener id exists (200, else 404), for every value of the
`X-Terrapod-Client-Cert` header; the five-step verification chain exists
in `get_listener_identity` (which does reject a certificate not signed
by the CA with 401) but is not wired to this endpoint. -/
theorem heartbeat_ignores_client_cert :
    (∀ (listeners : List RunnerListener) (lid : Nat) (cert : Option ClientCert)
        (capacity ar : Nat) (rdj : String) (now : Nat),
      (listener_heartbeat listeners lid cert capacity ar rdj now).1
        = if (listeners.find? (fun l => l.id == lid)).isSome then 200 else 404)
    ∧ (∀ (c : ClientCert) (listeners : List RunnerListener)
        (now_ok : ClientCert → Bool),
      c.parses = true → c.signed_by_ca = false →
      get_listener_identity (some c) listeners now_ok = Except.error 401) := by
  constructor
  · intro listeners lid cert capacity ar rdj now
    unfold listener_heartbeat
    cases h : listeners.find? (fun l => l.id == lid) <;> simp [h]
  · intro c listeners now_ok hp hs
    simp [get_listener_identity, hp, hs]

/-- Witness for the amended C1 theorem at concrete inputs. -/
theorem heartbeat_ignores_client_cert_witness :
    get_listener_identity
        (some { parses := true, signed_by_ca := false, in_validity_window := true,
                common_name := some "l1", fingerprint := "aa" })
        [{ id := 5, pool_id := 2, name := "l1", certificate_fingerprint := some "aa" }]
        (fun c => c.in_validity_window)
      = Except.error 401 :=
  heartbeat_ignores_client_cert.2
    { parses := true, signed_by_ca := false, in_validity_window := true,
      common_name := some "l1", fingerprint := "aa" }
    [{ id := 5, pool_id := 2, name := "l1", certificate_fingerprint := some "aa" }]
    (fun c => c.in_validity_window) rfl rfl

-- ── C4: confirm_run and plan_only ───────────────────────────────────────

/-- Claim C4, counterexample: `confirm_run` on a run with
`plan_only = true` in `planned` status succeeds and moves the run to
`confirmed` — the service checks only the status, so the claim's
`not_confirmable` failure does not happen, and a `plan_only` run does
reach `confirmed`. -/
theorem confirm_plan_only_succeeds :
    ((confirm_run exPlannedPlanOnlyRun 5).toOption.map fun r => r.status)
        = some "confirmed"
    ∧ exPlannedPlanOnlyRun.plan_only = true := by
  exact ⟨rfl, rfl⟩

/-- Claim C4, amended: `confirm_run` succeeds exactly when the run's
status is `planned`, regardless of `plan_only`; on success the run is
`confirmed`.  (`plan_only` is honored only by the auto-apply bridge,
which skips the automatic `planned → confirmed` step.) -/
theorem confirm_run_checks_only_status (run : Run) (now : Nat) :
    (confirm_run run now).isOk = (run.status == "planned")
    ∧ ((confirm_run run now).toOption.map fun r => r.status)
        = (if run.status = "planned" then some "confirmed" else none) := by
  by_cases h : run.status = "planned"
  · have hc : can_transition "planned" "confirmed" = true := by rfl
    constructor
    · simp [confirm_run, h, transition_run, hc]
    · simp [confirm_run, h, transition_run, hc, transition_apply_status]
  · constructor
    · simp [confirm_run, h]
    · simp [confirm_run, h]

-- ── C5: orphan recovery of a still-running apply Job ────────────────────

/-- Claim C5 (code bug exhibit): for a run orphaned in `applying` whose
apply Job is still running, `_recover_orphaned_runs` correctly selects
the apply phase, but `_resume_watch` reports `planned` when the resumed
Job finishes `succeeded` — an illegal `applying → planned` transition
that raises instead of moving the run to `applied`.  The sibling branch
for an already-finished Job computes the correct `applied` target. -/
theorem resumed_apply_job_reports_planned :
    recovery_phase exApplyingRun = "apply"
    ∧ resume_watch_report "succeeded" = ("planned", "")
    ∧ resume_watch_transition exApplyingRun "succeeded" 9
        = Except.error "Invalid transition: applying -> planned"
    ∧ recovered_finished_target "succeeded" "apply" = "applied" :=
  ⟨rfl, rfl, rfl, rfl⟩

-- ── C8: state encryption round-trip and legacy pass-through ─────────────

/-- Claim C8: with an encryption key configured whose Fernet decryption
inverts its encryption, `decrypt_state` after `encrypt_state` returns
the original bytes; and any blob that does not start with the `TPENC1:`
magic prefix is returned unchanged by `decrypt_state`, whatever the key
configuration. -/
theorem state_encryption_round_trip :
    (∀ (f : FernetKey) (b : List Nat), (∀ x, f.dec (f.enc x) = some x) →
      decrypt_state (some f) (encrypt_state (some f) b) = Except.ok b)
    ∧ (∀ (fernet : Option FernetKey) (data : List Nat),
      STATE_MAGIC.isPrefixOf data = false →
      decrypt_state fernet data = Except.ok data) := by
  constructor
  · intro f b h
    unfold decrypt_state encrypt_state
    have h1 : STATE_MAGIC.isPrefixOf (STATE_MAGIC ++ f.enc b) = true := by
      simp [List.isPrefixOf_iff_prefix]
    rw [h1]
    simp [List.drop_left, h]
  · intro fernet data h
    unfold decrypt_state
    rw [h]
    simp

/-- Witness for C8 at a concrete codec and concrete blobs. -/
theorem state_encryption_round_trip_witness :
    decrypt_state (some { enc := fun x => x, dec := fun x => some x })
        (encrypt_state (some { enc := fun x => x, dec := fun x => some x }) [10, 20])
      = Except.ok [10, 20]
    ∧ decrypt_state none [0, 1] = Except.ok [0, 1] :=
  ⟨state_encryption_round_trip.1 _ [10, 20] (fun _ => rfl),
   state_encryption_round_trip.2 none [0, 1] (by decide)⟩

-- ── C2: the applying transition and the workspace lock ──────────────────

/-- Claim C2, counterexample: a successful `confirmed → applying`
transition through the listener PATCH endpoint leaves an unlocked
workspace unlocked — the resulting state has a run in `applying` with
`workspace.locked = false` and `lock_id = none`, not the claimed
`locked = true` with `lock_id = "run-r1"`.  No code path sets a
`"run-{id}"` lock. -/
theorem applying_leaves_workspace_unlocked :
    (update_run_status exConfirmedRun exWorkspace 7 "applying" "" 5).toOption.map
        (fun p => (p.1.status, p.2.locked, p.2.lock_id))
      = some ("applying", false, (none : Option String)) := by
  rfl

/-- Claim C2, amended: the transition into `applying` does not touch the
workspace lock at all — a successful `update_run_status` to `applying`
returns the workspace unchanged (so a run in `applying` need not hold
any lock). -/
theorem applying_transition_does_not_touch_lock
    (run : Run) (ws : Workspace) (l : Nat) (em : String) (now : Nat)
    (r' : Run) (ws' : Workspace)
    (h : update_run_status run ws l "applying" em now = Except.ok (r', ws')) :
    ws' = ws ∧ r'.status = "applying" := by
  unfold update_run_status at h
  by_cases hl : run.listener_id = some l
  · rw [if_neg (not_not_intro hl), if_neg (by decide : ¬("applying" = ""))] at h
    cases ht : transition_run run "applying" em now with
    | error e =>
      rw [ht] at h
      cases h
    | ok r1 =>
      rw [ht] at h
      dsimp only at h
      have hbridge : ¬("applying" = "planned" ∧ r1.auto_apply = true ∧ ¬r1.plan_only = true) := by
        intro hc
        exact absurd hc.1 (by decide)
      rw [if_neg hbridge] at h
      dsimp only at h
      rw [if_neg (by decide : ¬(TERMINAL_STATES.contains "applying" = true))] at h
      simp only [Except.ok.injEq, Prod.mk.injEq] at h
      obtain ⟨h1, h2⟩ := h
      obtain ⟨hc, he⟩ := transition_run_ok_iff.mp ht
      refine ⟨h2.symm, ?_⟩
      rw [← h1, he]
      exact transition_apply_status run "applying" em now
  · rw [if_pos hl] at h
    cases h

/-- Witness for the amended C2 theorem at a concrete confirmed run. -/
theorem applying_transition_does_not_touch_lock_witness :
    exWorkspace = exWorkspace
    ∧ (transition_apply exConfirmedRun "applying" "" 5).status = "applying" :=
  applying_transition_does_not_touch_lock exConfirmedRun exWorkspace 7 "" 5
    (transition_apply exConfirmedRun "applying" "" 5) exWorkspace (by rfl)

-- ── C3: lock release on terminal transitions ────────────────────────────

/-- Claim C3, counterexample: a run entering the terminal state
`canceled` clears a workspace lock held under `lock_id =
"lock-alice@example.com"` — a lock id that does not match
`"run-r1"` — so a lock held under another lock_id is NOT left
unchanged as the claim states. -/
theorem terminal_releases_foreign_lock :
    (update_run_status exApplyingRun exUserLockedWorkspace 7 "canceled" "" 5).toOption.map
        (fun p => (p.2.locked, p.2.lock_id))
      = some (false, (none : Option String))
    ∧ exUserLockedWorkspace.lock_id = some "lock-alice@example.com" := by
  exact ⟨rfl, rfl⟩

/-- Claim C3, amended: every transition into a terminal state releases
the workspace lock exactly when the workspace is locked, with no
comparison of `lock_id` against `"run-{id}"`; `discard_run` and
`cancel_run` unlock the same way. -/
theorem terminal_unlock_ignores_lock_id :
    (∀ (run : Run) (ws : Workspace) (l : Nat) (tgt em : String) (now : Nat)
        (r' : Run) (ws' : Workspace),
      TERMINAL_STATES.contains tgt = true →
      update_run_status run ws l tgt em now = Except.ok (r', ws') →
      ws' = unlock_if_locked ws)
    ∧ (∀ (run : Run) (ws : Workspace) (now : Nat) (r' : Run) (ws' : Workspace),
      discard_run run ws now = Except.ok (r', ws') → ws' = unlock_if_locked ws)
    ∧ (∀ (run : Run) (ws : Workspace) (now : Nat) (r' : Run) (ws' : Workspace),
      cancel_run run ws now = Except.ok (r', ws') → ws' = unlock_if_locked ws) := by
  refine ⟨?_, ?_, ?_⟩
  · intro run ws l tgt em now r' ws' hterm h
    unfold update_run_status at h
    by_cases hl : run.listener_id = some l
    · have htne : tgt ≠ "" := by
        intro he
        rw [he] at hterm
        exact absurd hterm (by decide)
      rw [if_neg (not_not_intro hl), if_neg htne] at h
      cases ht : transition_run run tgt em now with
      | error e =>
        rw [ht] at h
        cases h
      | ok r1 =>
        rw [ht] at h
        dsimp only at h
        have hnp : tgt ≠ "planned" := by
          intro he
          rw [he] at hterm
          exact absurd hterm (by decide)
        have hbridge : ¬(tgt = "planned" ∧ r1.auto_apply = true ∧ ¬r1.plan_only = true) := by
          intro hc
          exact hnp hc.1
        rw [if_neg hbridge] at h
        dsimp only at h
        rw [if_pos hterm] at h
        simp only [Except.ok.injEq, Prod.mk.injEq] at h
        exact h.2.symm
    · rw [if_pos hl] at h
      cases h
  · intro run ws now r' ws' h
    unfold discard_run at h
    by_cases hs : run.status = "planned"
    · rw [if_neg (not_not_intro hs)] at h
      cases ht : transition_run run "discarded" "" now with
      | error e =>
        rw [ht] at h
        cases h
      | ok r1 =>
        rw [ht] at h
        simp only [Except.ok.injEq, Prod.mk.injEq] at h
        exact h.2.symm
    · rw [if_pos hs] at h
      cases h
  · intro run ws now r' ws' h
    unfold cancel_run at h
    split at h
    · cases h
    · cases ht : transition_run run "canceled" "" now with
      | error e =>
        rw [ht] at h
        cases h
      | ok r1 =>
        rw [ht] at h
        simp only [Except.ok.injEq, Prod.mk.injEq] at h
        exact h.2.symm

/-- Witness for the amended C3 theorem: a canceled apply releases the
foreign user lock. -/
theorem terminal_unlock_ignores_lock_id_witness :
    TERMINAL_STATES.contains "canceled" = true
    ∧ unlock_if_locked exUserLockedWorkspace = unlock_if_locked exUserLockedWorkspace :=
  ⟨by decide,
   terminal_unlock_ignores_lock_id.1 exApplyingRun exUserLockedWorkspace 7 "canceled" "" 5
     (transition_apply exApplyingRun "canceled" "" 5)
     (unlock_if_locked exUserLockedWorkspace) (by decide) (by rfl)⟩

-- ── C6: transition success iff the spec graph allows it ─────────────────

/-- Claim C6: for every run whose status is one of the ten persisted
statuses and every target status, `transition_run` succeeds exactly when
the spec's section 4.5 graph lists the target among the allowed
transitions of the source — and every attempted transition out of a
terminal state fails. -/
theorem transition_iff_spec_graph (run : Run) (tgt em : String) (now : Nat)
    (hs : run.status ∈ RUN_STATUSES) (ht : tgt ∈ RUN_STATUSES) :
    ((transition_run run tgt em now).isOk
        = (allowed_transitions_spec run.status).contains tgt)
    ∧ (TERMINAL_STATES.contains run.status = true →
        (transition_run run tgt em now).isOk = false) := by
  constructor
  · rw [transition_run_isOk]
    simp only [RUN_STATUSES, List.mem_cons, List.not_mem_nil, or_false] at hs ht
    rcases hs with h|h|h|h|h|h|h|h|h|h <;> rw [h] <;>
      (rcases ht with h2|h2|h2|h2|h2|h2|h2|h2|h2|h2 <;> rw [h2] <;> rfl)
  · intro hterm
    rw [transition_run_isOk]
    unfold can_transition
    rw [hterm]
    rfl

/-- Witness for C6 at a concrete pending run and queued target. -/
theorem transition_iff_spec_graph_witness :
    ((transition_run exRun "queued" "" 1).isOk
        = (allowed_transitions_spec exRun.status).contains "queued")
    ∧ (TERMINAL_STATES.contains exRun.status = true →
        (transition_run exRun "queued" "" 1).isOk = false) :=
  transition_iff_spec_graph exRun "queued" "" 1 (by decide) (by decide)

-- ── C9: log serving with STX/ETX framing ────────────────────────────────

/-- Claim C9: for a stored log payload, the served body is the slice
`payload[offset : offset+limit]` with STX (0x02) prepended exactly when
`offset = 0` and ETX (0x03) appended exactly when the run status lies in
the phase's terminal-for-this-phase set and `offset + limit ≥
len(payload)` — for both the plan-phase set and the apply-phase set. -/
theorem serve_log_framing (payload : List Nat) (offset limit : Nat) (st : String) :
    (serve_log st POST_PLAN_STATES (some payload) offset limit
      = (if offset = 0 then STX else []) ++ ((payload.drop offset).take limit)
        ++ (if POST_PLAN_STATES.contains st ∧ offset + limit ≥ payload.length
            then ETX else []))
    ∧ (serve_log st POST_APPLY_STATES (some payload) offset limit
      = (if offset = 0 then STX else []) ++ ((payload.drop offset).take limit)
        ++ (if POST_APPLY_STATES.contains st ∧ offset + limit ≥ payload.length
            then ETX else [])) := by
  constructor <;>
    · unfold serve_log
      dsimp only
      split_ifs <;> simp [List.append_assoc]

-- ── C10: pool assignment and pool-scoped claiming ───────────────────────

/-- A claimed run always carries the claiming listener's pool: the queue
query filters on `pool_id = listener.pool_id` and the `planning`
transition does not change the pool. -/
theorem claim_next_run_pool_eq (runs : List Run) (listener : RunnerListener)
    (now : Nat) (r : Run) (h : claim_next_run runs listener now = some r) :
    r.pool_id = some listener.pool_id := by
  unfold claim_next_run at h
  cases hf : runs.find? (fun x => x.status == "queued" && x.pool_id == some listener.pool_id) with
  | none =>
    rw [hf] at h
    cases h
  | some r0 =>
    rw [hf] at h
    dsimp only at h
    have hp := List.find?_some hf
    simp only [Bool.and_eq_true, beq_iff_eq] at hp
    obtain ⟨hst, hpool⟩ := hp
    have hcan : can_transition ({ r0 with listener_id := some listener.id } : Run).status "planning" = true := by
      show can_transition r0.status "planning" = true
      rw [hst]
      rfl
    rw [show transition_run { r0 with listener_id := some listener.id } "planning" "" now
        = Except.ok (transition_apply { r0 with listener_id := some listener.id } "planning" "" now) by
      unfold transition_run
      rw [hcan]
      simp] at h
    simp only [tp_toOption_ok, Option.some.injEq] at h
    rw [← h, transition_apply_pool_id]
    exact hpool

/-- Claim C10: `create_run` assigns the workspace's pool when it names
one, otherwise the `default` pool when that lookup finds one, otherwise
no pool; and `claim_next_run` only ever returns runs whose pool equals
the claiming listener's pool — so a run with no pool is never claimed. -/
theorem run_pool_assignment_and_claim :
    (∀ (ws : Workspace) (message : String) (is_destroy : Bool)
        (auto_apply : Option Bool) (plan_only : Bool)
        (source tfv created_by : String) (default_pool : Option Nat)
        (new_id : String) (now : Nat),
      (create_run ws message is_destroy auto_apply plan_only source tfv created_by
          default_pool new_id now).pool_id
        = match ws.agent_pool_id with
          | some p => some p
          | none => default_pool)
    ∧ (∀ (runs : List Run) (listener : RunnerListener) (now : Nat),
      ((claim_next_run runs listener now).all
          fun r => r.pool_id == some listener.pool_id) = true)
    ∧ (∀ (runs : List Run) (listener : RunnerListener) (now : Nat) (r : Run),
      claim_next_run runs listener now = some r → r.pool_id ≠ none) := by
  refine ⟨?_, ?_, ?_⟩
  · intro ws message is_destroy auto_apply plan_only source tfv created_by
      default_pool new_id now
    rfl
  · intro runs listener now
    cases hc : claim_next_run runs listener now with
    | none => rfl
    | some r =>
      have := claim_next_run_pool_eq runs listener now r hc
      simp [Option.all, this]
  · intro runs listener now r h
    rw [claim_next_run_pool_eq runs listener now r h]
    simp

/-- Witness for C10: a concrete queued run in the listener's pool is
claimed, and the claimed run's pool is set. -/
theorem run_pool_assignment_and_claim_witness :
    claim_next_run [{ exRun with status := "queued" }]
        { id := 7, pool_id := 2, name := "l1", certificate_fingerprint := none } 5
      = some (transition_apply { exRun with
          status := "queued"
          listener_id := some 7 } "planning" "" 5)
    ∧ (transition_apply { exRun with
          status := "queued"
          listener_id := some 7 } "planning" "" 5).pool_id ≠ none :=
  ⟨by rfl,
   run_pool_assignment_and_claim.2.2 [{ exRun with status := "queued" }]
     { id := 7, pool_id := 2, name := "l1", certificate_fingerprint := none } 5
     (transition_apply { exRun with
        status := "queued"
        listener_id := some 7 } "planning" "" 5) (by rfl)⟩

-- ── C7: phase timestamps ────────────────────────────────────────────────

/-- The timestamp invariant is preserved by every successful transition
taken at a time `now` not earlier than the previous write time. -/
theorem run_ts_inv_preserved {r : Run} {t : Nat} {tgt msg : String} {now : Nat} {r' : Run}
    (hinv : run_ts_inv r t = true) (hle : t ≤ now)
    (hok : transition_run r tgt msg now = Except.ok r') :
    run_ts_inv r' now = true := by
  obtain ⟨hcan, he⟩ := transition_run_ok_iff.mp hok
  subst he
  simp only [run_ts_inv, Bool.and_eq_true] at hinv
  obtain ⟨⟨hchain, hbound⟩, hshape⟩ := hinv
  unfold can_transition at hcan
  split at hcan
  · cases hcan
  · unfold VALID_TRANSITIONS at hcan
    split at hcan
    all_goals simp at hcan
    -- pending
    · rename_i heq
      simp [ts_shape, heq, and_assoc] at hshape
      rcases hcan with h2|h2|h2 <;> subst h2 <;>
        simp_all [transition_apply, run_ts_inv, ts_chain, ts_bound, ts_shape,
          opt_le, opt_ub]
    -- queued
    · rename_i heq
      simp [ts_shape, heq, and_assoc] at hshape
      rcases hcan with h2|h2|h2 <;> subst h2 <;>
        simp_all [transition_apply, run_ts_inv, ts_chain, ts_bound, ts_shape,
          opt_le, opt_ub]
    -- planning
    · rename_i heq
      simp [ts_shape, heq, and_assoc] at hshape
      obtain ⟨hps, hpf, has, haf⟩ := hshape
      obtain ⟨x, hx⟩ := Option.isSome_iff_exists.mp hps
      rcases hcan with h2|h2|h2 <;> subst h2 <;>
        simp_all [transition_apply, run_ts_inv, ts_chain, ts_bound, ts_shape,
          opt_le, opt_ub] <;> try omega
    -- planned
    · rename_i heq
      simp [ts_shape, heq, and_assoc] at hshape
      obtain ⟨hps, hpf, has, haf⟩ := hshape
      obtain ⟨x, hx⟩ := Option.isSome_iff_exists.mp hps
      obtain ⟨y, hy⟩ := Option.isSome_iff_exists.mp hpf
      rcases hcan with h2|h2|h2|h2 <;> subst h2 <;>
        simp_all [transition_apply, run_ts_inv, ts_chain, ts_bound, ts_shape,
          opt_le, opt_ub] <;> try omega
    -- confirmed
    · rename_i heq
      simp [ts_shape, heq, and_assoc] at hshape
      obtain ⟨hps, hpf, has, haf⟩ := hshape
      obtain ⟨x, hx⟩ := Option.isSome_iff_exists.mp hps
      obtain ⟨y, hy⟩ := Option.isSome_iff_exists.mp hpf
      rcases hcan with h2|h2|h2 <;> subst h2 <;>
        simp_all [transition_apply, run_ts_inv, ts_chain, ts_bound, ts_shape,
          opt_le, opt_ub] <;> try omega
    -- applying
    · rename_i heq
      simp [ts_shape, heq, and_assoc] at hshape
      obtain ⟨hps, hpf, has, haf⟩ := hshape
      obtain ⟨x, hx⟩ := Option.isSome_iff_exists.mp hps
      obtain ⟨y, hy⟩ := Option.isSome_iff_exists.mp hpf
      obtain ⟨z, hz⟩ := Option.isSome_iff_exists.mp has
      rcases hcan with h2|h2|h2 <;> subst h2 <;>
        simp_all [transition_apply, run_ts_inv, ts_chain, ts_bound, ts_shape,
          opt_le, opt_ub] <;> try omega

/-- On an invariant-satisfying run, a successful transition stamps the
phase timestamps exactly as the spec describes: `planning` sets
`plan_started_at`; `planned`/`errored` with a started, unfinished plan
sets `plan_finished_at`; `applying` sets `apply_started_at`;
`applied`/`errored` with a started, unfinished apply sets
`apply_finished_at`; every other field is left unchanged. -/
theorem transition_stamps_eq {r : Run} {t : Nat} {tgt msg : String} {now : Nat} {r' : Run}
    (hinv : run_ts_inv r t = true)
    (hok : transition_run r tgt msg now = Except.ok r') :
    (r'.plan_started_at = if tgt = "planning" then some now else r.plan_started_at)
    ∧ (r'.plan_finished_at =
        if (tgt = "planned" ∨ tgt = "errored")
            ∧ r.plan_started_at.isSome = true ∧ r.plan_finished_at.isNone = true
        then some now else r.plan_finished_at)
    ∧ (r'.apply_started_at = if tgt = "applying" then some now else r.apply_started_at)
    ∧ (r'.apply_finished_at =
        if (tgt = "applied" ∨ tgt = "errored")
            ∧ r.apply_started_at.isSome = true ∧ r.apply_finished_at.isNone = true
        then some now else r.apply_finished_at) := by
  obtain ⟨hcan, he⟩ := transition_run_ok_iff.mp hok
  subst he
  simp only [run_ts_inv, Bool.and_eq_true] at hinv
  obtain ⟨⟨hchain, hbound⟩, hshape⟩ := hinv
  unfold can_transition at hcan
  split at hcan
  · cases hcan
  · unfold VALID_TRANSITIONS at hcan
    split at hcan
    all_goals simp at hcan
    -- pending
    · rename_i heq
      simp [ts_shape, heq, and_assoc] at hshape
      rcases hcan with h2|h2|h2 <;> subst h2 <;>
        simp_all [transition_apply]
    -- queued
    · rename_i heq
      simp [ts_shape, heq, and_assoc] at hshape
      rcases hcan with h2|h2|h2 <;> subst h2 <;>
        simp_all [transition_apply]
    -- planning
    · rename_i heq
      simp [ts_shape, heq, and_assoc] at hshape
      obtain ⟨hps, hpf, has, haf⟩ := hshape
      obtain ⟨x, hx⟩ := Option.isSome_iff_exists.mp hps
      rcases hcan with h2|h2|h2 <;> subst h2 <;>
        simp_all [transition_apply]
    -- planned
    · rename_i heq
      simp [ts_shape, heq, and_assoc] at hshape
      obtain ⟨hps, hpf, has, haf⟩ := hshape
      obtain ⟨x, hx⟩ := Option.isSome_iff_exists.mp hps
      obtain ⟨y, hy⟩ := Option.isSome_iff_exists.mp hpf
      rcases hcan with h2|h2|h2|h2 <;> subst h2 <;>
        simp_all [transition_apply]
    -- confirmed
    · rename_i heq
      simp [ts_shape, heq, and_assoc] at hshape
      obtain ⟨hps, hpf, has, haf⟩ := hshape
      obtain ⟨x, hx⟩ := Option.isSome_iff_exists.mp hps
      obtain ⟨y, hy⟩ := Option.isSome_iff_exists.mp hpf
      rcases hcan with h2|h2|h2 <;> subst h2 <;>
        simp_all [transition_apply]
    -- applying
    · rename_i heq
      simp [ts_shape, heq, and_assoc] at hshape
      obtain ⟨hps, hpf, has, haf⟩ := hshape
      obtain ⟨x, hx⟩ := Option.isSome_iff_exists.mp hps
      obtain ⟨y, hy⟩ := Option.isSome_iff_exists.mp hpf
      obtain ⟨z, hz⟩ := Option.isSome_iff_exists.mp has
      rcases hcan with h2|h2|h2 <;> subst h2 <;>
        simp_all [transition_apply]

/-- The invariant holds at every state reachable by successful
transitions with non-decreasing clock. -/
theorem run_reach_inv {r0 : Run} {t0 : Nat} {r : Run} {t : Nat}
    (h0 : run_ts_inv r0 t0 = true) (h : RunReach r0 t0 r t) :
    run_ts_inv r t = true := by
  induction h with
  | refl => exact h0
  | step hr hle hok ih => exact run_ts_inv_preserved ih hle hok

/-- Claim C7: along every sequence of successful transitions (with
`utc_now` non-decreasing) starting from an invariant state, the set
phase timestamps satisfy `plan_started_at ≤ plan_finished_at ≤
apply_started_at ≤ apply_finished_at`; each timestamp is written only by
the state machine on the corresponding transition (the four stamping
equations); and a freshly created run satisfies the invariant, so the
chain holds for every run built by `create_run`. -/
theorem run_phase_timestamps_monotone :
    (∀ (r0 : Run) (t0 : Nat) (r : Run) (t : Nat),
      run_ts_inv r0 t0 = true → RunReach r0 t0 r t → ts_chain r = true)
    ∧ (∀ (r : Run) (t : Nat) (tgt msg : String) (now : Nat) (r' : Run),
      run_ts_inv r t = true → t ≤ now →
      transition_run r tgt msg now = Except.ok r' →
      (r'.plan_started_at = if tgt = "planning" then some now else r.plan_started_at)
      ∧ (r'.plan_finished_at =
          if (tgt = "planned" ∨ tgt = "errored")
              ∧ r.plan_started_at.isSome = true ∧ r.plan_finished_at.isNone = true
          then some now else r.plan_finished_at)
      ∧ (r'.apply_started_at = if tgt = "applying" then some now else r.apply_started_at)
      ∧ (r'.apply_finished_at =
          if (tgt = "applied" ∨ tgt = "errored")
              ∧ r.apply_started_at.isSome = true ∧ r.apply_finished_at.isNone = true
          then some now else r.apply_finished_at))
    ∧ (∀ (ws : Workspace) (message : String) (is_destroy : Bool)
        (auto_apply : Option Bool) (plan_only : Bool)
        (source tfv created_by : String) (default_pool : Option Nat)
        (new_id : String) (now t : Nat),
      run_ts_inv (create_run ws message is_destroy auto_apply plan_only source tfv
          created_by default_pool new_id now) t = true) := by
  refine ⟨?_, ?_, ?_⟩
  · intro r0 t0 r t h0 h
    have := run_reach_inv h0 h
    simp only [run_ts_inv, Bool.and_eq_true] at this
    exact this.1.1
  · intro r t tgt msg now r' hinv hle hok
    exact transition_stamps_eq hinv hok
  · intro ws message is_destroy auto_apply plan_only source tfv created_by
      default_pool new_id now t
    rfl

/-- Witness for C7: a concrete one-step reachable run satisfies the
chain, and a concrete `planning → planned` transition stamps
`plan_finished_at`. -/
theorem run_phase_timestamps_monotone_witness :
    ts_chain (transition_apply (create_run exWorkspace "" false none false
        "tfe-api" "" "u" none "r9" 0) "queued" "" 1) = true
    ∧ ((transition_apply { exRun with
          status := "planning"
          plan_started_at := some 1 } "planned" "" 5).plan_finished_at = some 5)
    ∧ run_ts_inv (create_run exWorkspace "" false none false
        "tfe-api" "" "u" none "r9" 0) 0 = true := by
  have h0 : run_ts_inv (create_run exWorkspace "" false none false
      "tfe-api" "" "u" none "r9" 0) 0 = true :=
    run_phase_timestamps_monotone.2.2 exWorkspace "" false none false
      "tfe-api" "" "u" none "r9" 0 0
  refine ⟨?_, ?_, h0⟩
  · exact run_phase_timestamps_monotone.1 _ 0 _ 1 h0
      (@RunReach.step _ _ _ _ "queued" "" 1 _ (RunReach.refl _ 0) (by decide) (by rfl))
  · have h2 := (run_phase_timestamps_monotone.2.1
      { exRun with status := "planning", plan_started_at := some 1 }
      1 "planned" "" 5
      (transition_apply { exRun with status := "planning", plan_started_at := some 1 } "planned" "" 5)
      (by rfl) (by decide) (by rfl)).2.1
    rw [h2]
    rfl

end Terrapod
